import Mathlib

/-!
Verification development for the myFlix movie API (Express + Mongoose).

The embedding models the two source files (`index.js`, here `src/unnamed/part_000`,
and `src/auth.js`) as pure Lean functions over an explicit document store.
Library collaborators (mongoose, express-validator, validator.js, bcrypt via
`models.js`, passport strategies in `passport.js`, the `xss` filter) are not part
of the repository sources; where their behaviour decides a property they are
modelled explicitly, with a doc comment saying so.
-/

namespace MovieApi

/-- Modelled from the spec: `models.js` (Mongoose schemas) is not under src/.
Genre sub-record of a movie: name plus description (spec section 3). -/
structure Genre where
  Name : String
  Description : String
deriving DecidableEq, Repr

/-- Modelled from the spec: `models.js` is not under src/.
Director sub-record of a movie: name, bio, birth year, death year (spec section 3). -/
structure Director where
  Name : String
  Bio : String
  Birth : String
  Death : String
deriving DecidableEq, Repr

/-- Modelled from the spec: `models.js` is not under src/.
Movie record: opaque identifier, title, description, genre, director, image reference. -/
structure Movie where
  id : String
  Title : String
  Description : String
  Genre : Genre
  Director : Director
  ImagePath : String
deriving DecidableEq, Repr

/-- Modelled from the spec: `models.js` is not under src/.
User record: Username, Password (stored as a one-way hash), Email, Birthday,
FavoriteMovies (ordered list of movie identifiers, duplicates permitted).
Dates and the store-assigned identifier are modelled as strings. -/
structure User where
  Username : String
  Password : String
  Email : String
  Birthday : String
  FavoriteMovies : List String
deriving DecidableEq, Repr

/-- The document store backing the API: the Movies and Users collections. -/
structure Store where
  movies : List Movie
  users : List User
deriving DecidableEq, Repr

/-- A registration/update request body: each of the four fields may be absent
(`none`) or present. Mirrors `req.body` as read by `index.js`. -/
structure UserBody where
  Username : Option String
  Password : Option String
  Email : Option String
  Birthday : Option String
deriving DecidableEq, Repr

/-- JSON bodies the handlers produce, one constructor per response shape
appearing in `index.js` / `auth.js`. -/
inductive JBody where
  | null
  | text (s : String)
  | movieList (ms : List Movie)
  | movieOpt (m : Option Movie)
  | directorData (d : Director)
  | userOpt (u : Option User)
  | userPublic (Username Email Birthday : String)
  | favs (ids : List String)
  | errs (messages : List String)
  | loginErr (message : String) (user : Option User)
deriving DecidableEq, Repr

/-- An HTTP response: status code plus JSON-ish body. -/
structure Response where
  status : Nat
  body : JBody
deriving DecidableEq, Repr

/-- Modelled from the spec: `Users.hashPassword` lives in `models.js` (bcrypt),
not under src/. The salted one-way hash is idealized as an injective tagged
function; what matters for the claims is that the stored value is the hash,
never the plaintext, and that verification compares against this hash. -/
def hashPassword (p : String) : String := "bcrypt$" ++ p

/-- JavaScript truthiness of an optional string field, as used by
`if (req.body.Username) ...` in the PUT handler: absent and empty are falsy. -/
def truthy (o : Option String) : Bool := o.getD "" != ""

/-- The value express-validator sees for a body field: a missing field is
validated as the empty string. -/
def fieldVal (o : Option String) : String := o.getD ""

/-- Modelled from the spec: `validator.js` `isAlphanumeric` (library code).
Default locale accepts only ASCII letters and digits, and rejects the empty
string (the regex requires at least one character). -/
def isAlphanumeric (s : String) : Bool :=
  s != "" && s.toList.all (fun c => c.isAlpha || c.isDigit)

/-- Modelled from the spec: `validator.js` `isEmail` (library code), reduced to
the syntactic core the claims need: one `@` separating a nonempty local part
from a domain made of at least two nonempty dot-separated labels. -/
def isEmail (s : String) : Bool :=
  match s.toList.splitOn '@' with
  | [lp, domain] =>
      !lp.isEmpty && (domain.splitOn '.').all (fun l => !l.isEmpty)
        && (domain.splitOn '.').length ≥ 2
  | _ => false

/-- The four validator chains attached to `app.post('/users', ...)`, in source
order, each contributing its message when violated; `validationResult` collects
all of them (not fail-fast). -/
def validationErrors (b : UserBody) : List String :=
  (if (fieldVal b.Username).length ≥ 5 then [] else ["Username is required"])
  ++ (if isAlphanumeric (fieldVal b.Username) then []
      else ["Username contains non alphanumeric characters - not allowed."])
  ++ (if (fieldVal b.Password).isEmpty then ["Password is required"] else [])
  ++ (if isEmail (fieldVal b.Email) then []
      else ["Email does not appear to be valid"])

/-- `app.post('/users')`: validate (422 on any violation), then duplicate check
by Username (400 naming the Username), then create; 201 echoes Username, Email,
Birthday. Returns the response and the post-request store. -/
def registerUser (st : Store) (b : UserBody) : Response × Store :=
  let errs := validationErrors b
  if errs.isEmpty then
    match st.users.find? (fun u => u.Username == fieldVal b.Username) with
    | some _ =>
        (⟨400, .text (fieldVal b.Username ++ " already exists")⟩, st)
    | none =>
        let u : User :=
          { Username := fieldVal b.Username
            Password := hashPassword (fieldVal b.Password)
            Email := fieldVal b.Email
            Birthday := fieldVal b.Birthday
            FavoriteMovies := [] }
        (⟨201, .userPublic u.Username u.Email u.Birthday⟩,
          { st with users := st.users ++ [u] })
  else
    (⟨422, .errs errs⟩, st)

/-- The value instances express-validator checks for the `Username` field on
`PUT /users/:Username`: `check('Username')` searches the request body and the
route parameters, so the path username is always an instance, preceded by the
body field when that is present. -/
def putUsernameVals (pathU : String) (b : UserBody) : List String :=
  (match b.Username with | some u => [u] | none => []) ++ [pathU]

/-- The validator chains attached to `app.put('/users/:Username', ...)`, with
`Username` validated at every location instance (body and path), `Password` and
`Email` taken from the body (missing reads as empty). All violations are
collected by `validationResult`. -/
def putValidationErrors (pathU : String) (b : UserBody) : List String :=
  ((putUsernameVals pathU b).filterMap
      (fun v => if v.length ≥ 5 then none else some "Username is required"))
  ++ ((putUsernameVals pathU b).filterMap
      (fun v => if isAlphanumeric v then none
        else some "Username contains non alphanumeric characters - not allowed."))
  ++ (if (fieldVal b.Password).isEmpty then ["Password is required"] else [])
  ++ (if isEmail (fieldVal b.Email) then []
      else ["Email does not appear to be valid"])

/-- The `$set` object built by the PUT handler: each field is added to the
update only when the body field is truthy; the Password update stores the hash
computed from the supplied plaintext. Applying it to the matched user record
leaves every field without a truthy body value unchanged. -/
def applySetFields (b : UserBody) (u : User) : User :=
  { u with
    Username := if truthy b.Username then fieldVal b.Username else u.Username
    Password := if truthy b.Password then hashPassword (fieldVal b.Password)
      else u.Password
    Email := if truthy b.Email then fieldVal b.Email else u.Email
    Birthday := if truthy b.Birthday then fieldVal b.Birthday else u.Birthday }

/-- `findOneAndUpdate` over the Users collection: transform the first record
matching the Username and return the post-update record (`new: true`), or
`none` (and the unchanged list) when no record matches. -/
def updateFirst (users : List User) (name : String) (f : User → User) :
    Option User × List User :=
  match users with
  | [] => (none, [])
  | u :: rest =>
    if u.Username == name then (some (f u), f u :: rest)
    else
      let r := updateFirst rest name f
      (r.1, u :: r.2)

/-- `app.put('/users/:Username')` (after the auth gate): 422 with all collected
messages on validation failure, otherwise `findOneAndUpdate` with the `$set`
object and 201 with the post-update record (`null` when no user matches). -/
def updateUser (st : Store) (pathU : String) (b : UserBody) : Response × Store :=
  let errs := putValidationErrors pathU b
  if errs.isEmpty then
    let r := updateFirst st.users pathU (applySetFields b)
    (⟨201, .userOpt r.1⟩, { st with users := r.2 })
  else
    (⟨422, .errs errs⟩, st)

/-- `app.post('/users/:Username/movies/:MovieID')` (after the auth gate):
`findOneAndUpdate` with `$push` appends the movie identifier to
`FavoriteMovies` (no duplicate check) and the response is the post-update
record; when no user matches, the update is a no-op and the body is `null`
(`res.json` default status 200, no error). -/
def addFavorite (st : Store) (un mid : String) : Response × Store :=
  let r := updateFirst st.users un
    (fun u => { u with FavoriteMovies := u.FavoriteMovies ++ [mid] })
  (⟨200, .userOpt r.1⟩, { st with users := r.2 })

/-- `app.delete('/users/:Username/movies/:MovieID')` (after the auth gate):
`findOneAndUpdate` with `$pull` removes every occurrence of the movie
identifier from `FavoriteMovies`; when no user matches, the body is `null`
(`res.json` default status 200, no error). -/
def removeFavorite (st : Store) (un mid : String) : Response × Store :=
  let r := updateFirst st.users un
    (fun u => { u with FavoriteMovies := u.FavoriteMovies.filter (fun m => m != mid) })
  (⟨200, .userOpt r.1⟩, { st with users := r.2 })

/-- `app.get('/users/:Username/favorites')` (after the auth gate): look up the
user and answer 201 with the FavoriteMovies list; when no user matches, the
handler dereferences `null` (`user.FavoriteMovies`), the thrown TypeError is
caught and a 500 error text is sent (error text abbreviated here). -/
def getFavorites (st : Store) (un : String) : Response :=
  match st.users.find? (fun u => u.Username == un) with
  | some u => ⟨201, .favs u.FavoriteMovies⟩
  | none => ⟨500, .text "Error: TypeError"⟩

/-- `findOneAndRemove` over the Users collection: remove the first record
matching the Username, returning it with the remaining list, or `none`. -/
def removeFirst (users : List User) (name : String) : Option User × List User :=
  match users with
  | [] => (none, [])
  | u :: rest =>
    if u.Username == name then (some u, rest)
    else
      let r := removeFirst rest name
      (r.1, u :: r.2)

/-- `app.delete('/users/:Username')` (after the auth gate): remove by Username;
400 naming the Username when absent, 200 naming the deleted Username otherwise. -/
def deleteUser (st : Store) (un : String) : Response × Store :=
  match removeFirst st.users un with
  | (none, _) => (⟨400, .text (un ++ " was not found")⟩, st)
  | (some _, rest) => (⟨200, .text (un ++ " was deleted.")⟩, { st with users := rest })

/-- `app.get('/users/:Username')` (auth gate commented out in the source):
find by Username and answer with the record, `null` when absent. -/
def getUser (st : Store) (un : String) : Response :=
  ⟨200, .userOpt (st.users.find? (fun u => u.Username == un))⟩

/-- `app.get('/movies')` (after the auth gate): all movies, status 201. -/
def getMovies (st : Store) : Response :=
  ⟨201, .movieList st.movies⟩

/-- `app.get('/movies/:MovieID')` (after the auth gate): find one by id; the
body is the record or `null`, status 200 either way. -/
def getMovie (st : Store) (mid : String) : Response :=
  ⟨200, .movieOpt (st.movies.find? (fun m => m.id == mid))⟩

/-- `app.get('/movies/genres/:genre')` (after the auth gate): every movie whose
Genre name matches exactly, status 200. -/
def getGenreMovies (st : Store) (g : String) : Response :=
  ⟨200, .movieList (st.movies.filter (fun m => m.Genre.Name == g))⟩

/-- `app.get('/directors/:name')` (after the auth gate): `findOne` on the
Director name, then `res.json(movies.Director)`. When no movie matches,
`movies` is `null` and the field access throws a TypeError; the promise
`.catch` answers 500 with an error text (abbreviated here). When a movie
matches, the Director sub-record is sent with status 200. -/
def getDirector (st : Store) (name : String) : Response :=
  match st.movies.find? (fun m => m.Director.Name == name) with
  | some m => ⟨200, .directorData m.Director⟩
  | none => ⟨500, .text "Error: TypeError"⟩

/-- The symmetric signing secret held by the server (`auth.js`). -/
def jwtSecret : String := "your_jwt_secret"

/-- Seconds in seven days, the `expiresIn: '7d'` of `generateJWTToken`. -/
def sevenDays : Nat := 7 * 24 * 60 * 60

/-- Modelled from the spec: the HMAC-SHA-256 computed by `jsonwebtoken` is
library code; it is idealized as an injective tagged serialization of the
secret, the signed claims and the timestamps, so that a signature matches
exactly when it was produced over the same data with the same secret. -/
def macSig (secret : String) (u : User) (iat expiry : Nat) : String :=
  secret ++ "#" ++ u.Username ++ "#" ++ u.Password ++ "#" ++ u.Email
    ++ "#" ++ u.Birthday ++ "#" ++ String.intercalate "," u.FavoriteMovies
    ++ "#" ++ toString iat ++ "#" ++ toString expiry

/-- A decoded JWT: the claim payload (the full user object `auth.js` signs),
the registered claims `sub`, `iat`, `exp` (named `expiry` here) set by
`generateJWTToken`, the header algorithm, and the signature. -/
structure Token where
  payload : User
  sub : String
  iat : Nat
  expiry : Nat
  alg : String
  sig : String
deriving DecidableEq, Repr

/-- `generateJWTToken` (`auth.js`): sign the user object with the server
secret, subject the Username, expiry issuance time + 7 days, algorithm HS256. -/
def generateJWTToken (secret : String) (u : User) (now : Nat) : Token :=
  { payload := u
    sub := u.Username
    iat := now
    expiry := now + sevenDays
    alg := "HS256"
    sig := macSig secret u now (now + sevenDays) }

/-- Modelled from the spec: the JWT strategy lives in `passport.js`, which is
not under src/. Verification checks the signature against the same secret and
that the expiry has not passed (`jsonwebtoken` rejects once the clock reaches
`exp`); any failure rejects the request before the handler runs. -/
def verifyToken (secret : String) (t : Token) (now : Nat) : Bool :=
  t.alg == "HS256" && t.sig == macSig secret t.payload t.iat t.expiry
    && decide (now < t.expiry)

/-- Modelled from the spec: the local strategy lives in `passport.js`, which is
not under src/. Per spec section 4.1: look up the user by Username; fail (with
no distinction) when the user is absent or the supplied password does not hash
to the stored hash; otherwise produce the user record. -/
def authenticateLocal (st : Store) (un pw : String) : Option User :=
  match st.users.find? (fun u => u.Username == un) with
  | none => none
  | some u => if u.Password == hashPassword pw then some u else none

/-- Modelled from the spec: the `xss` module is library code; escaping of the
HTML-significant characters in echoed fields. -/
def xssFilter (s : String) : String :=
  String.join (s.toList.map (fun c =>
    if c = '<' then "&lt;" else if c = '>' then "&gt;"
    else if c = '&' then "&amp;" else String.singleton c))

/-- The body of a successful login response: the token together with the
sanitized user object `auth.js` builds (Username, FavoriteMovies, Email,
Birthday; the Password hash is not part of this object, though it is inside
the token payload). -/
structure LoginOk where
  token : Token
  Username : String
  FavoriteMovies : List String
  Email : String
  Birthday : String
deriving DecidableEq, Repr

/-- A login response: either the 400 failure body `auth.js` sends
(`message: 'Something is not right'` plus the falsy `user` value) or the
200 body with token and sanitized user. -/
inductive LoginResponse where
  | failure (status : Nat) (message : String) (user : Option User)
  | success (status : Nat) (body : LoginOk)
deriving DecidableEq, Repr

/-- `router.post('/login')` (`auth.js`): authenticate with the local strategy;
on error or no user, 400 with a generic message; on success, sign the full
user object and answer with the token and the sanitized user fields. -/
def login (st : Store) (un pw : String) (now : Nat) : LoginResponse :=
  match authenticateLocal st un pw with
  | none => .failure 400 "Something is not right" none
  | some u =>
      .success 200
        { token := generateJWTToken jwtSecret u now
          Username := xssFilter u.Username
          FavoriteMovies := u.FavoriteMovies
          Email := xssFilter u.Email
          Birthday := xssFilter u.Birthday }

/-- The requests the router of `index.js` dispatches (login, mounted by
`auth.js`, is handled by `login` above and is not auth-gated either way). -/
inductive Req where
  | getMovies
  | getMovie (mid : String)
  | getGenreMovies (genre : String)
  | getDirector (name : String)
  | postUsers (b : UserBody)
  | putUser (un : String) (b : UserBody)
  | addFavorite (un mid : String)
  | removeFavorite (un mid : String)
  | getFavorites (un : String)
  | deleteUser (un : String)
  | getUser (un : String)
deriving DecidableEq, Repr

/-- Which routes carry `passport.authenticate('jwt', ...)` in `index.js`:
every route except `POST /users` (registration) and `GET /users/:Username`
(whose gate is commented out in the source). -/
def requiresAuth : Req → Bool
  | .postUsers _ => false
  | .getUser _ => false
  | _ => true

/-- The route handlers of `index.js`, run only after any auth gate passed.
Read-only handlers return the store unchanged. -/
def runHandler (st : Store) : Req → Response × Store
  | .getMovies => (getMovies st, st)
  | .getMovie mid => (getMovie st mid, st)
  | .getGenreMovies g => (getGenreMovies st g, st)
  | .getDirector n => (getDirector st n, st)
  | .postUsers b => registerUser st b
  | .putUser un b => updateUser st un b
  | .addFavorite un mid => addFavorite st un mid
  | .removeFavorite un mid => removeFavorite st un mid
  | .getFavorites un => (getFavorites st un, st)
  | .deleteUser un => deleteUser st un
  | .getUser un => (getUser st un, st)

/-- The router with its authorization gate: on a protected route, failed
bearer-token verification short-circuits with passport's 401 before the
handler body runs and before any store access; otherwise the handler runs.
(On `PUT /users/:Username` the validator middlewares precede the gate, but
they only annotate the request and touch no data.) -/
def dispatch (st : Store) (authOk : Bool) (r : Req) : Response × Store :=
  if requiresAuth r && !authOk then (⟨401, .text "Unauthorized"⟩, st)
  else runHandler st r

/-! Helper lemmas about the `findOneAndUpdate` model. -/

theorem updateFirst_fst (users : List User) (name : String) (f : User → User) :
    (updateFirst users name f).1
      = (users.find? (fun x => x.Username == name)).map f := by
  induction users with
  | nil => rfl
  | cons v rest ih =>
    by_cases h : v.Username == name
    · rw [List.find?_cons_of_pos (p := fun x => x.Username == name) rest h]
      simp [updateFirst, h]
    · rw [List.find?_cons_of_neg (p := fun x => x.Username == name) rest h]
      simp [updateFirst, h, ih]

theorem updateFirst_of_find_none (users : List User) (name : String)
    (f : User → User)
    (h : users.find? (fun x => x.Username == name) = none) :
    updateFirst users name f = (none, users) := by
  induction users with
  | nil => rfl
  | cons v rest ih =>
    by_cases hc : v.Username == name
    · rw [List.find?_cons_of_pos (p := fun x => x.Username == name) rest hc] at h
      exact absurd h (by simp)
    · rw [List.find?_cons_of_neg (p := fun x => x.Username == name) rest hc] at h
      simp [updateFirst, hc, ih h]

theorem updateFirst_eq_of_find (users : List User) (name : String)
    (f : User → User) (u : User)
    (hfind : users.find? (fun x => x.Username == name) = some u)
    (hfix : f u = u) :
    updateFirst users name f = (some u, users) := by
  induction users with
  | nil => simp [List.find?] at hfind
  | cons v rest ih =>
    by_cases hc : v.Username == name
    · rw [List.find?_cons_of_pos (p := fun x => x.Username == name) rest hc] at hfind
      have hv : v = u := by injection hfind
      subst hv
      simp [updateFirst, hc, hfix]
    · rw [List.find?_cons_of_neg (p := fun x => x.Username == name) rest hc] at hfind
      simp [updateFirst, hc, ih hfind]

theorem filter_bne_of_not_mem (l : List String) (mid : String)
    (h : mid ∉ l) :
    l.filter (fun m => m != mid) = l := by
  apply List.filter_eq_self.mpr
  intro a ha
  have hne : a ≠ mid := fun he => h (he ▸ ha)
  simpa using hne

/-! Concrete records used by the witnesses and counterexamples. -/

/-- A stored user as created through registration: valid Username, hashed
Password, one favorite movie. -/
def aliceStored : User :=
  { Username := "alice5"
    Password := hashPassword "pw"
    Email := "a@b.com"
    Birthday := "2000-01-01"
    FavoriteMovies := ["m1"] }

/-- A sample movie record. -/
def sampleMovie : Movie :=
  { id := "m1"
    Title := "Vertigo"
    Description := "A detective story."
    Genre := { Name := "Thriller", Description := "Suspense." }
    Director := { Name := "Alfred Hitchcock", Bio := "Director.",
                  Birth := "1899", Death := "1980" }
    ImagePath := "vertigo.png" }

/-- A store holding one movie and one registered user. -/
def sampleStore : Store := { movies := [sampleMovie], users := [aliceStored] }

/-- The empty store. -/
def emptyStore : Store := { movies := [], users := [] }

/-! The claims. -/

/-- C2: for every endpoint except registration (`POST /users`), login
(`POST /login`, mounted separately by `auth.js` and never auth-gated), and
`GET /users/:Username` (gate commented out), failed bearer-token verification
rejects the request with the 401 response and performs no data-store
operation: the store is returned unchanged and the handler body never
contributes to the response. -/
theorem protected_endpoints_require_auth (st : Store) (r : Req)
    (h : requiresAuth r = true) :
    dispatch st false r = (⟨401, .text "Unauthorized"⟩, st) := by
  simp [dispatch, h]

theorem protected_endpoints_require_auth_witness :
    requiresAuth (Req.putUser "alice5" ⟨none, none, none, none⟩) = true ∧
    dispatch sampleStore false (Req.putUser "alice5" ⟨none, none, none, none⟩)
      = (⟨401, .text "Unauthorized"⟩, sampleStore) :=
  ⟨rfl, protected_endpoints_require_auth sampleStore _ rfl⟩

/-- C4: every registration payload with a too-short Username, a
non-alphanumeric Username, an empty (or missing) Password, or a syntactically
invalid Email is answered with 422 carrying the collected list of field-level
messages (each violated rule contributes its message; the checks are not
fail-fast), and the store is unchanged: no record is created. -/
theorem registration_validation_rejects (st : Store) (b : UserBody)
    (h : (fieldVal b.Username).length < 5
       ∨ isAlphanumeric (fieldVal b.Username) = false
       ∨ fieldVal b.Password = ""
       ∨ isEmail (fieldVal b.Email) = false) :
    (registerUser st b).1 = ⟨422, .errs (validationErrors b)⟩ ∧
    validationErrors b ≠ [] ∧
    (registerUser st b).2 = st ∧
    ((fieldVal b.Username).length < 5 →
      "Username is required" ∈ validationErrors b) ∧
    (isAlphanumeric (fieldVal b.Username) = false →
      "Username contains non alphanumeric characters - not allowed."
        ∈ validationErrors b) ∧
    (fieldVal b.Password = "" → "Password is required" ∈ validationErrors b) ∧
    (isEmail (fieldVal b.Email) = false →
      "Email does not appear to be valid" ∈ validationErrors b) := by
  have m1 : (fieldVal b.Username).length < 5 →
      "Username is required" ∈ validationErrors b := by
    intro h5
    have h5' : ¬ (fieldVal b.Username).length ≥ 5 := Nat.not_le.mpr h5
    simp [validationErrors, h5']
  have m2 : isAlphanumeric (fieldVal b.Username) = false →
      "Username contains non alphanumeric characters - not allowed."
        ∈ validationErrors b := by
    intro ha
    simp [validationErrors, ha]
  have m3 : fieldVal b.Password = "" →
      "Password is required" ∈ validationErrors b := by
    intro hp
    have hp' : (fieldVal b.Password).isEmpty = true := by rw [hp]; rfl
    simp [validationErrors, hp']
  have m4 : isEmail (fieldVal b.Email) = false →
      "Email does not appear to be valid" ∈ validationErrors b := by
    intro he
    simp [validationErrors, he]
  have hne : validationErrors b ≠ [] := by
    rcases h with h | h | h | h
    · exact List.ne_nil_of_mem (m1 h)
    · exact List.ne_nil_of_mem (m2 h)
    · exact List.ne_nil_of_mem (m3 h)
    · exact List.ne_nil_of_mem (m4 h)
  have hemp : (validationErrors b).isEmpty = false := by
    simpa using hne
  refine ⟨?_, hne, ?_, m1, m2, m3, m4⟩
  · simp [registerUser, hemp]
  · simp [registerUser, hemp]

theorem registration_validation_rejects_witness :
    (fieldVal (UserBody.mk (some "ab") none (some "bad") none).Username).length < 5 ∧
    (registerUser emptyStore (UserBody.mk (some "ab") none (some "bad") none)).1
      = ⟨422, .errs (validationErrors (UserBody.mk (some "ab") none (some "bad") none))⟩ ∧
    (registerUser emptyStore (UserBody.mk (some "ab") none (some "bad") none)).2
      = emptyStore :=
  ⟨by decide,
   (registration_validation_rejects emptyStore _ (Or.inl (by decide))).1,
   (registration_validation_rejects emptyStore _ (Or.inl (by decide))).2.2.1⟩

/-- C1 counterexample: a PUT body holding only the subset `{Email}` of the
update fields, with a valid Email value and an existing target user, is
answered 422 (the Password validator fires on the absent field), not 201: the
claim fails as stated for proper subsets omitting Password (or Email, or a
body-and-path-invalid Username). -/
theorem put_subset_body_rejected :
    isEmail "a@b.com" = true ∧
    (updateUser sampleStore "alice5"
        (UserBody.mk none none (some "a@b.com") none)).1
      = ⟨422, .errs ["Password is required"]⟩ := by
  constructor
  · rfl
  · rfl

/-- C1 (amended): a PUT request whose fields pass the validators (which
require a valid Username at body and path, a nonempty Password, and a valid
Email — only Birthday may be freely omitted) succeeds with 201, applies only
the truthy body fields to the matched record, leaves every other field (and
FavoriteMovies, and the Movies collection) unchanged, and returns the
post-update record; a 422 is returned exactly when the validators report a
violation, including one on an absent Username, Password, or Email, and then
the store is untouched. -/
theorem put_user_partial_update (st : Store) (pathU : String) (b : UserBody)
    (u : User)
    (hv : putValidationErrors pathU b = [])
    (hfind : st.users.find? (fun x => x.Username == pathU) = some u) :
    (updateUser st pathU b).1
      = ⟨201, .userOpt (some (applySetFields b u))⟩ ∧
    (updateUser st pathU b).2
      = { st with users := (updateFirst st.users pathU (applySetFields b)).2 } ∧
    (applySetFields b u).FavoriteMovies = u.FavoriteMovies ∧
    (truthy b.Username = false → (applySetFields b u).Username = u.Username) ∧
    (truthy b.Password = false → (applySetFields b u).Password = u.Password) ∧
    (truthy b.Email = false → (applySetFields b u).Email = u.Email) ∧
    (truthy b.Birthday = false → (applySetFields b u).Birthday = u.Birthday) ∧
    (truthy b.Username = true →
      (applySetFields b u).Username = fieldVal b.Username) ∧
    (truthy b.Password = true →
      (applySetFields b u).Password = hashPassword (fieldVal b.Password)) ∧
    (truthy b.Email = true → (applySetFields b u).Email = fieldVal b.Email) ∧
    (truthy b.Birthday = true →
      (applySetFields b u).Birthday = fieldVal b.Birthday) ∧
    (∀ st2 p2 b2, putValidationErrors p2 b2 ≠ [] →
      updateUser st2 p2 b2 = (⟨422, .errs (putValidationErrors p2 b2)⟩, st2)) := by
  have hemp : (putValidationErrors pathU b).isEmpty = true := by
    rw [hv]
    rfl
  have hfst : (updateFirst st.users pathU (applySetFields b)).1
      = some (applySetFields b u) := by
    rw [updateFirst_fst, hfind]
    rfl
  refine ⟨?_, ?_, rfl, ?_, ?_, ?_, ?_, ?_, ?_, ?_, ?_, ?_⟩
  · simp [updateUser, hemp, hfst]
  · simp [updateUser, hemp]
  · intro h
    simp [applySetFields, h]
  · intro h
    simp [applySetFields, h]
  · intro h
    simp [applySetFields, h]
  · intro h
    simp [applySetFields, h]
  · intro h
    simp [applySetFields, h]
  · intro h
    simp [applySetFields, h]
  · intro h
    simp [applySetFields, h]
  · intro h
    simp [applySetFields, h]
  · intro st2 p2 b2 hne
    have h2 : (putValidationErrors p2 b2).isEmpty = false := by
      simpa using hne
    simp [updateUser, h2]

theorem put_user_partial_update_witness :
    (updateUser sampleStore "alice5"
        (UserBody.mk none (some "np") (some "a@b.com") none)).1
      = ⟨201, .userOpt (some (applySetFields
          (UserBody.mk none (some "np") (some "a@b.com") none) aliceStored))⟩ ∧
    (applySetFields (UserBody.mk none (some "np") (some "a@b.com") none)
        aliceStored).Username = aliceStored.Username ∧
    (applySetFields (UserBody.mk none (some "np") (some "a@b.com") none)
        aliceStored).Birthday = aliceStored.Birthday :=
  ⟨(put_user_partial_update sampleStore "alice5" _ aliceStored
      (by decide) (by decide)).1,
   (put_user_partial_update sampleStore "alice5" _ aliceStored
      (by decide) (by decide)).2.2.2.1 (by decide),
   (put_user_partial_update sampleStore "alice5" _ aliceStored
      (by decide) (by decide)).2.2.2.2.2.2.1 (by decide)⟩

/-- C5 counterexample: with "alice5" already stored, a second registration
attempt carrying Username "alice5" but an invalid Email is answered 422
(ValidationFailed), not the claimed 400 DuplicateUser: the claim fails for
second attempts whose payload does not pass field validation. -/
theorem duplicate_with_invalid_payload_not_400 :
    (registerUser sampleStore
        (UserBody.mk (some "alice5") (some "pw") (some "notanemail") none)).1
      = ⟨422, .errs ["Email does not appear to be valid"]⟩ ∧
    (registerUser sampleStore
        (UserBody.mk (some "alice5") (some "pw") (some "notanemail") none)).1.status
      ≠ 400 := by
  constructor
  · rfl
  · decide

/-- C5 (amended): for every Username already present in the store, a second
registration attempt with that Username whose payload passes field validation
is answered 400 with a message naming the conflicting Username, and the store
is returned unchanged: the existing record is not altered and nothing is
created (an attempt failing validation is instead answered 422, also leaving
the store unchanged). -/
theorem duplicate_registration_rejected (st : Store) (b : UserBody) (u : User)
    (hv : validationErrors b = [])
    (hdup : st.users.find? (fun x => x.Username == fieldVal b.Username)
      = some u) :
    registerUser st b
      = (⟨400, .text (fieldVal b.Username ++ " already exists")⟩, st) := by
  have hemp : (validationErrors b).isEmpty = true := by
    rw [hv]
    rfl
  simp [registerUser, hemp, hdup]

theorem duplicate_registration_rejected_witness :
    registerUser sampleStore
        (UserBody.mk (some "alice5") (some "other") (some "x@y.zz") none)
      = (⟨400, .text "alice5 already exists"⟩, sampleStore) := by
  have h := duplicate_registration_rejected sampleStore
    (UserBody.mk (some "alice5") (some "other") (some "x@y.zz") none)
    aliceStored (by decide) (by decide)
  simpa using h

/-- C6: when no movie has a Director whose name matches, the handler for
`GET /directors/:name` does not answer with an empty/null body as the claim
states: `res.json(movies.Director)` dereferences the null query result, the
TypeError is caught, and a 500 error response is sent. Evaluated here at a
store whose only movie has a different director. -/
theorem director_not_found_yields_500 :
    getDirector sampleStore "Stanley Kubrick"
      = ⟨500, .text "Error: TypeError"⟩ ∧
    (getDirector sampleStore "Stanley Kubrick").status ≠ 200 := by
  constructor
  · rfl
  · decide

/-- C7: removing a movie identifier absent from an existing user's
FavoriteMovies leaves the record (and the whole store) unchanged and still
answers success: 200 with the unchanged record as body, no error. -/
theorem remove_absent_favorite_noop (st : Store) (un mid : String) (u : User)
    (hfind : st.users.find? (fun x => x.Username == un) = some u)
    (habs : mid ∉ u.FavoriteMovies) :
    removeFavorite st un mid = (⟨200, .userOpt (some u)⟩, st) := by
  have hfix :
      (fun x => { x with
        FavoriteMovies := x.FavoriteMovies.filter (fun m => m != mid) }) u
        = u := by
    simp [filter_bne_of_not_mem u.FavoriteMovies mid habs]
  have h := updateFirst_eq_of_find st.users un
    (fun x => { x with
      FavoriteMovies := x.FavoriteMovies.filter (fun m => m != mid) })
    u hfind hfix
  simp [removeFavorite, h]

theorem remove_absent_favorite_noop_witness :
    removeFavorite sampleStore "alice5" "zzz"
      = (⟨200, .userOpt (some aliceStored)⟩, sampleStore) :=
  remove_absent_favorite_noop sampleStore "alice5" "zzz" aliceStored
    (by decide) (by decide)

/-- C3: a token issued at time T for an authenticated user has the user's
Username as its subject, carries the HS256 algorithm and the expiry T + 7
days, is accepted by the verifier (same server secret) at every instant
before T + 7 days, and is rejected at every instant after T + 7 days and
whenever the signature has been altered. -/
theorem token_lifecycle (secret : String) (u : User) (T now : Nat) :
    (generateJWTToken secret u T).sub = u.Username ∧
    (generateJWTToken secret u T).alg = "HS256" ∧
    (generateJWTToken secret u T).expiry = T + sevenDays ∧
    (now < T + sevenDays →
      verifyToken secret (generateJWTToken secret u T) now = true) ∧
    (T + sevenDays < now →
      verifyToken secret (generateJWTToken secret u T) now = false) ∧
    (∀ s, s ≠ (generateJWTToken secret u T).sig →
      verifyToken secret { generateJWTToken secret u T with sig := s } now
        = false) := by
  refine ⟨rfl, rfl, rfl, ?_, ?_, ?_⟩
  · intro h
    simp [verifyToken, generateJWTToken, h]
  · intro h
    have hnl : ¬ now < T + sevenDays := by omega
    simp [verifyToken, generateJWTToken, hnl]
  · intro s hs
    have hb : (s == macSig secret u T (T + sevenDays)) = false :=
      beq_eq_false_iff_ne.mpr hs
    simp [verifyToken, generateJWTToken, hb]

theorem token_lifecycle_witness :
    (generateJWTToken jwtSecret aliceStored 0).sub = aliceStored.Username ∧
    verifyToken jwtSecret (generateJWTToken jwtSecret aliceStored 0) 604799
      = true ∧
    verifyToken jwtSecret (generateJWTToken jwtSecret aliceStored 0) 604801
      = false ∧
    verifyToken jwtSecret
        { generateJWTToken jwtSecret aliceStored 0 with sig := "forged" } 50
      = false :=
  ⟨(token_lifecycle jwtSecret aliceStored 0 0).1,
   (token_lifecycle jwtSecret aliceStored 0 604799).2.2.2.1 (by decide),
   (token_lifecycle jwtSecret aliceStored 0 604801).2.2.2.2.1 (by decide),
   (token_lifecycle jwtSecret aliceStored 0 50).2.2.2.2.2 "forged" (by decide)⟩

/-- C8: every failing login — because no user carries the supplied Username,
or because the supplied Password does not hash to the stored hash — produces
the one same 400 response with the generic message and the falsy user value,
revealing nothing about which credential was wrong, and no token is issued
(the failure response carries none). -/
theorem login_failure_indistinguishable
    (st1 : Store) (un1 pw1 : String) (now1 : Nat)
    (st2 : Store) (un2 pw2 : String) (now2 : Nat) (u : User)
    (h1 : st1.users.find? (fun x => x.Username == un1) = none)
    (h2 : st2.users.find? (fun x => x.Username == un2) = some u)
    (h2p : u.Password ≠ hashPassword pw2) :
    login st1 un1 pw1 now1 = .failure 400 "Something is not right" none ∧
    login st2 un2 pw2 now2 = .failure 400 "Something is not right" none ∧
    login st1 un1 pw1 now1 = login st2 un2 pw2 now2 := by
  have hb : (u.Password == hashPassword pw2) = false :=
    beq_eq_false_iff_ne.mpr h2p
  have e1 : authenticateLocal st1 un1 pw1 = none := by
    simp [authenticateLocal, h1]
  have e2 : authenticateLocal st2 un2 pw2 = none := by
    simp [authenticateLocal, h2, hb]
  refine ⟨?_, ?_, ?_⟩
  · simp [login, e1]
  · simp [login, e2]
  · simp [login, e1, e2]

theorem login_failure_indistinguishable_witness :
    login emptyStore "ghost" "pw" 5
      = .failure 400 "Something is not right" none ∧
    login sampleStore "alice5" "wrong" 9
      = .failure 400 "Something is not right" none ∧
    login emptyStore "ghost" "pw" 5 = login sampleStore "alice5" "wrong" 9 :=
  login_failure_indistinguishable emptyStore "ghost" "pw" 5
    sampleStore "alice5" "wrong" 9 aliceStored
    (by decide) (by decide) (by decide)

/-- C9: every successful login signs the full stored user record as the token
payload: the issued token's payload equals the authenticated record, so in
particular it contains the stored Password hash, while the user object echoed
beside the token holds only the sanitized Username, FavoriteMovies, Email and
Birthday. -/
theorem login_token_payload_full_user (st : Store) (un pw : String)
    (now : Nat) (u : User)
    (h : authenticateLocal st un pw = some u) :
    login st un pw now
      = .success 200
          { token := generateJWTToken jwtSecret u now
            Username := xssFilter u.Username
            FavoriteMovies := u.FavoriteMovies
            Email := xssFilter u.Email
            Birthday := xssFilter u.Birthday } ∧
    (generateJWTToken jwtSecret u now).payload = u ∧
    (generateJWTToken jwtSecret u now).payload.Password = u.Password := by
  refine ⟨?_, rfl, rfl⟩
  simp [login, h]

theorem login_token_payload_full_user_witness :
    (generateJWTToken jwtSecret aliceStored 42).payload = aliceStored ∧
    (generateJWTToken jwtSecret aliceStored 42).payload.Password
      = hashPassword "pw" :=
  ⟨(login_token_payload_full_user sampleStore "alice5" "pw" 42 aliceStored
      (by decide)).2.1,
   (login_token_payload_full_user sampleStore "alice5" "pw" 42 aliceStored
      (by decide)).2.2⟩

/-- C10: an add-favorite or remove-favorite request whose path names a
Username with no matching record does not fail with a not-found error: the
`findOneAndUpdate` matches nothing, the callback receives no error, and the
handler answers success (status 200) with the null record as body, leaving
the store unchanged. -/
theorem favorites_unknown_user_success_null (st : Store) (un mid : String)
    (h : st.users.find? (fun x => x.Username == un) = none) :
    addFavorite st un mid = (⟨200, .userOpt none⟩, st) ∧
    removeFavorite st un mid = (⟨200, .userOpt none⟩, st) := by
  constructor
  · have hu := updateFirst_of_find_none st.users un
      (fun u => { u with FavoriteMovies := u.FavoriteMovies ++ [mid] }) h
    simp [addFavorite, hu]
  · have hu := updateFirst_of_find_none st.users un
      (fun u => { u with
        FavoriteMovies := u.FavoriteMovies.filter (fun m => m != mid) }) h
    simp [removeFavorite, hu]

theorem favorites_unknown_user_success_null_witness :
    addFavorite sampleStore "nobody9" "m1"
      = (⟨200, .userOpt none⟩, sampleStore) ∧
    removeFavorite sampleStore "nobody9" "m1"
      = (⟨200, .userOpt none⟩, sampleStore) :=
  favorites_unknown_user_success_null sampleStore "nobody9" "m1" (by decide)

end MovieApi
